import Mathlib

/-!
Verification development for the y-webrtc signaling-adapter layer.

The development shallowly embeds the two readiness-gated broadcasting
adapters (`LaravelEchoAdapter`, `LaravelEchoPresenceAdapter`) and the
construction factory (`createSignalingAdapter`).  JavaScript `Map`s and
`Set`s are embedded as functions from keys to `Option`/`Bool`; outbound
transport effects (`channel.whisper('signaling', data)`) and error logs
(`console.error`) are recorded in append-only logs so ordering and
multiplicity claims can be stated.  The deferred `connect` emission
(`setTimeout(..., 0)`) is embedded as a counter of pending one-shot tasks
together with an explicit scheduler step that runs one such task.
Message payloads, echo instances and member ids are opaque and embedded
as `Nat`.
-/

namespace YWebrtcSpec

/-- Channel naming convention from `_getChannelName`: the string
`y-webrtc.` followed by the topic key. -/
def getChannelName (topic : String) : String := "y-webrtc." ++ topic

/-- Presence-channel member (`PresenceChannelMember`): a user id and opaque info. -/
structure Member where
  id : Nat
  info : Nat
  deriving DecidableEq, Repr

namespace LaravelEchoAdapter

/-- State of a `LaravelEchoAdapter` instance
(src/src/signaling-adapters/LaravelEchoAdapter.js).
`channels` records which topics hold a channel binding (the handle itself is
opaque, so only presence of the binding is kept); `readyChannels` is the
ready set; `messageQueue` maps a topic to its pending payload list, `none`
meaning no map entry.  `sent` logs every `channel.whisper('signaling', d)`
as a pair of the topic the channel is bound to and the payload; `errorLog`
logs every `console.error` from the subscription error handler.
`connectListeners`, `deliveredConnect` and `pendingConnectTasks` embed the
Observable `connect`-event wiring and the `setTimeout` deferral. -/
structure State where
  connected : Bool
  shouldConnect : Bool
  hasEcho : Bool
  channels : String → Bool
  readyChannels : String → Bool
  messageQueue : String → Option (List Nat)
  sent : List (String × Nat)
  errorLog : List (String × Nat)
  connectListeners : List Nat
  deliveredConnect : List Nat
  pendingConnectTasks : Nat

/-- Freshly constructed adapter: `connected = false` (base class), all maps
empty, `shouldConnect = false`; `hasEcho` records whether the supplied
`echoInstance` is truthy. -/
def init (hasEcho : Bool) : State :=
  { connected := false
    shouldConnect := false
    hasEcho := hasEcho
    channels := fun _ => false
    readyChannels := fun _ => false
    messageQueue := fun _ => none
    sent := []
    errorLog := []
    connectListeners := []
    deliveredConnect := []
    pendingConnectTasks := 0 }

/-- The `connect(url)` method: sets `shouldConnect` and `connected` and
schedules a deferred `emit('connect')` via `setTimeout(..., 0)`; nothing is
emitted synchronously. -/
def connect (s : State) : State :=
  { s with shouldConnect := true
           connected := true
           pendingConnectTasks := s.pendingConnectTasks + 1 }

/-- Registration of a `connect`-event listener on the Observable base. -/
def addConnectListener (l : Nat) (s : State) : State :=
  { s with connectListeners := s.connectListeners ++ [l] }

/-- The event loop running one scheduled `setTimeout` task: if a deferred
`connect` emission is pending, it fires once, delivering the event to every
currently registered listener. -/
def runDeferredTask (s : State) : State :=
  if s.pendingConnectTasks = 0 then s
  else
    { s with pendingConnectTasks := s.pendingConnectTasks - 1
             deliveredConnect := s.deliveredConnect ++ s.connectListeners }

/-- The `disconnect()` method: clears both flags, leaves every channel and
clears all three per-topic maps. -/
def disconnect (s : State) : State :=
  { s with shouldConnect := false
           connected := false
           channels := fun _ => false
           readyChannels := fun _ => false
           messageQueue := fun _ => none }

/-- One iteration of the `subscribe` loop body for a single topic: a topic
already in `channels` is skipped, otherwise a channel is opened (handlers
are embedded as the transport-callback steps below) and the binding stored. -/
def subscribeOne (s : State) (topic : String) : State :=
  if s.channels topic then s
  else { s with channels := fun t => if t = topic then true else s.channels t }

/-- The `subscribe(topics)` method: no-op unless `shouldConnect` and an echo
instance are present; otherwise processes each topic in order. -/
def subscribe (topics : List String) (s : State) : State :=
  if !s.shouldConnect || !s.hasEcho then s
  else topics.foldl subscribeOne s

/-- One iteration of the `unsubscribe` loop body: a bound topic is removed
from `channels`, `readyChannels` and `messageQueue`; an unknown topic is
ignored. -/
def unsubscribeOne (s : State) (topic : String) : State :=
  if s.channels topic then
    { s with channels := fun t => if t = topic then false else s.channels t
             readyChannels := fun t => if t = topic then false else s.readyChannels t
             messageQueue := fun t => if t = topic then none else s.messageQueue t }
  else s

/-- The `unsubscribe(topics)` method. -/
def unsubscribe (topics : List String) (s : State) : State :=
  topics.foldl unsubscribeOne s

/-- The `publish(topic, data)` method: no-op when the topic has no binding;
whisper immediately when the topic is ready; otherwise append to the
message queue, creating the entry when absent. -/
def publish (topic : String) (data : Nat) (s : State) : State :=
  if s.channels topic = false then s
  else if s.readyChannels topic then
    { s with sent := s.sent ++ [(topic, data)] }
  else
    { s with messageQueue := fun t =>
        if t = topic then some ((s.messageQueue topic).getD [] ++ [data])
        else s.messageQueue t }

/-- The `channel.subscribed(...)` handler firing for `topic`: adds the topic
to the ready set, flushes the queued messages in FIFO order over the
channel, then deletes the queue entry. -/
def subscribedFires (topic : String) (s : State) : State :=
  { s with readyChannels := fun t => if t = topic then true else s.readyChannels t
           sent := s.sent ++ ((s.messageQueue topic).getD []).map (fun d => (topic, d))
           messageQueue := fun t => if t = topic then none else s.messageQueue t }

/-- The `channel.error(...)` handler firing for `topic`: logs via
`console.error` and does nothing else. -/
def errorFires (topic : String) (err : Nat) (s : State) : State :=
  { s with errorLog := s.errorLog ++ [(getChannelName topic, err)] }

/-- The `destroy()` method: `disconnect()` followed by the Observable
teardown (`super.destroy()`), which drops all listeners. -/
def destroy (s : State) : State :=
  { disconnect s with connectListeners := [] }

/-- A consecutive run of `publish(topic, d)` calls, one per element of
`ds`, in list order. -/
def publishList (topic : String) (ds : List Nat) (s : State) : State :=
  ds.foldl (fun s d => publish topic d s) s

/-- Per-topic state invariant of the readiness-gated adapter: every ready
topic holds a channel binding, and a message-queue entry exists only for a
bound, not-yet-ready topic. -/
def Inv (s : State) : Prop :=
  ∀ t : String,
    (s.readyChannels t = true → s.channels t = true) ∧
    (s.messageQueue t ≠ none → s.channels t = true ∧ s.readyChannels t = false)

/-- One step of an adapter's life: a caller-invoked method or a transport
callback.  Transport callbacks fire only for topics holding a binding,
since the handlers are registered on the channel object at bind time. -/
inductive Step : State → State → Prop
  | connect (s : State) : Step s (connect s)
  | disconnect (s : State) : Step s (disconnect s)
  | subscribe (s : State) (topics : List String) : Step s (subscribe topics s)
  | unsubscribe (s : State) (topics : List String) : Step s (unsubscribe topics s)
  | publish (s : State) (topic : String) (data : Nat) : Step s (publish topic data s)
  | destroy (s : State) : Step s (destroy s)
  | subscribedFires (s : State) (topic : String) :
      s.channels topic = true → Step s (subscribedFires topic s)
  | errorFires (s : State) (topic : String) (err : Nat) :
      s.channels topic = true → Step s (errorFires topic err s)
  | addConnectListener (s : State) (l : Nat) : Step s (addConnectListener l s)
  | runDeferredTask (s : State) : Step s (runDeferredTask s)

/-- States reachable from a freshly constructed adapter by any sequence of
method calls and transport callbacks. -/
inductive Reach : State → Prop
  | init (hasEcho : Bool) : Reach (init hasEcho)
  | step {s s' : State} : Reach s → Step s s' → Reach s'

end LaravelEchoAdapter

namespace LaravelEchoPresenceAdapter

/-- Which of the optional presence callbacks are wired (non-null).  The
constructor stores each supplied callback or `null`; fluent setters can
also replace them.  Only wiredness is observable in the embedding; each
invocation is recorded in a per-callback log on the state. -/
structure CallbacksCfg where
  onHere : Bool
  onJoining : Bool
  onLeaving : Bool
  onError : Bool
  onSubscribed : Bool
  deriving DecidableEq, Repr

/-- State of a `LaravelEchoPresenceAdapter` instance
(src/signaling-adapters/LaravelEchoPresenceAdapter.js): the same fields as
the non-presence adapter plus `presenceMembers` (topic → roster), the
callback wiring and one invocation log per callback. -/
structure State where
  connected : Bool
  shouldConnect : Bool
  hasEcho : Bool
  channels : String → Bool
  readyChannels : String → Bool
  messageQueue : String → Option (List Nat)
  presenceMembers : String → Option (List Member)
  callbacks : CallbacksCfg
  onHereCalls : List (List Member)
  onJoiningCalls : List Member
  onLeavingCalls : List Member
  onErrorCalls : List (Nat × String)
  onSubscribedCalls : List String
  sent : List (String × Nat)
  errorLog : List (String × Nat)
  connectListeners : List Nat
  deliveredConnect : List Nat
  pendingConnectTasks : Nat

/-- Freshly constructed presence adapter: all maps and logs empty, both
flags false, callbacks as wired by the constructor argument. -/
def init (hasEcho : Bool) (cbs : CallbacksCfg) : State :=
  { connected := false
    shouldConnect := false
    hasEcho := hasEcho
    channels := fun _ => false
    readyChannels := fun _ => false
    messageQueue := fun _ => none
    presenceMembers := fun _ => none
    callbacks := cbs
    onHereCalls := []
    onJoiningCalls := []
    onLeavingCalls := []
    onErrorCalls := []
    onSubscribedCalls := []
    sent := []
    errorLog := []
    connectListeners := []
    deliveredConnect := []
    pendingConnectTasks := 0 }

/-- The `getPresenceMembers(topic)` method: the roster for the topic, or
the empty list when no roster entry exists. -/
def getPresenceMembers (topic : String) (s : State) : List Member :=
  (s.presenceMembers topic).getD []

/-- The `connect(url)` method, identical to the non-presence adapter:
sets both flags and schedules a deferred `emit('connect')`. -/
def connect (s : State) : State :=
  { s with shouldConnect := true
           connected := true
           pendingConnectTasks := s.pendingConnectTasks + 1 }

/-- Registration of a `connect`-event listener on the Observable base. -/
def addConnectListener (l : Nat) (s : State) : State :=
  { s with connectListeners := s.connectListeners ++ [l] }

/-- The event loop running one scheduled `setTimeout` task (see the
non-presence adapter). -/
def runDeferredTask (s : State) : State :=
  if s.pendingConnectTasks = 0 then s
  else
    { s with pendingConnectTasks := s.pendingConnectTasks - 1
             deliveredConnect := s.deliveredConnect ++ s.connectListeners }

/-- The `disconnect()` method: clears both flags, leaves every channel and
clears all four per-topic maps, including the rosters. -/
def disconnect (s : State) : State :=
  { s with shouldConnect := false
           connected := false
           channels := fun _ => false
           readyChannels := fun _ => false
           messageQueue := fun _ => none
           presenceMembers := fun _ => none }

/-- One iteration of the `subscribe` loop body: a topic already bound is
skipped, otherwise `echo.join` opens a presence channel, the seven handlers
are registered (embedded as the transport-callback steps below) and the
binding is stored. -/
def subscribeOne (s : State) (topic : String) : State :=
  if s.channels topic then s
  else { s with channels := fun t => if t = topic then true else s.channels t }

/-- The `subscribe(topics)` method: no-op unless `shouldConnect` and an echo
instance are present. -/
def subscribe (topics : List String) (s : State) : State :=
  if !s.shouldConnect || !s.hasEcho then s
  else topics.foldl subscribeOne s

/-- One iteration of the `unsubscribe` loop body: a bound topic is removed
from `channels`, `readyChannels`, `messageQueue` and `presenceMembers`;
an unknown topic is ignored. -/
def unsubscribeOne (s : State) (topic : String) : State :=
  if s.channels topic then
    { s with channels := fun t => if t = topic then false else s.channels t
             readyChannels := fun t => if t = topic then false else s.readyChannels t
             messageQueue := fun t => if t = topic then none else s.messageQueue t
             presenceMembers := fun t => if t = topic then none else s.presenceMembers t }
  else s

/-- The `unsubscribe(topics)` method. -/
def unsubscribe (topics : List String) (s : State) : State :=
  topics.foldl unsubscribeOne s

/-- The `publish(topic, data)` method, identical to the non-presence
adapter: drop when unbound, whisper when ready, queue otherwise. -/
def publish (topic : String) (data : Nat) (s : State) : State :=
  if s.channels topic = false then s
  else if s.readyChannels topic then
    { s with sent := s.sent ++ [(topic, data)] }
  else
    { s with messageQueue := fun t =>
        if t = topic then some ((s.messageQueue topic).getD [] ++ [data])
        else s.messageQueue t }

/-- The `channel.here(...)` handler firing for `topic` with the snapshot
`members`: replaces the roster wholesale and invokes `onHere` if wired. -/
def hereFires (topic : String) (members : List Member) (s : State) : State :=
  { s with presenceMembers := fun t => if t = topic then some members else s.presenceMembers t
           onHereCalls := s.onHereCalls ++ (if s.callbacks.onHere then [members] else []) }

/-- The `channel.joining(...)` handler firing for `topic` with `member`:
appends the member to the roster (an absent roster counts as empty) and
invokes `onJoining` if wired. -/
def joiningFires (topic : String) (member : Member) (s : State) : State :=
  { s with presenceMembers := fun t =>
      if t = topic then some ((s.presenceMembers topic).getD [] ++ [member])
      else s.presenceMembers t
           onJoiningCalls := s.onJoiningCalls ++ (if s.callbacks.onJoining then [member] else []) }

/-- The `channel.leaving(...)` handler firing for `topic` with `member`:
filters out every roster entry whose id equals `member.id` and invokes
`onLeaving` if wired. -/
def leavingFires (topic : String) (member : Member) (s : State) : State :=
  { s with presenceMembers := fun t =>
      if t = topic then some (((s.presenceMembers topic).getD []).filter (fun m => m.id != member.id))
      else s.presenceMembers t
           onLeavingCalls := s.onLeavingCalls ++ (if s.callbacks.onLeaving then [member] else []) }

/-- The `channel.subscribed(...)` handler firing for `topic`: adds the
topic to the ready set, invokes `onSubscribed` if wired, flushes the queue
in FIFO order over the channel and deletes the queue entry. -/
def subscribedFires (topic : String) (s : State) : State :=
  { s with readyChannels := fun t => if t = topic then true else s.readyChannels t
           onSubscribedCalls := s.onSubscribedCalls ++
             (if s.callbacks.onSubscribed then [getChannelName topic] else [])
           sent := s.sent ++ ((s.messageQueue topic).getD []).map (fun d => (topic, d))
           messageQueue := fun t => if t = topic then none else s.messageQueue t }

/-- The `channel.error(...)` handler firing for `topic`: logs via
`console.error` and invokes `onError` if wired; nothing else changes. -/
def errorFires (topic : String) (err : Nat) (s : State) : State :=
  { s with errorLog := s.errorLog ++ [(getChannelName topic, err)]
           onErrorCalls := s.onErrorCalls ++
             (if s.callbacks.onError then [(err, getChannelName topic)] else []) }

/-- The `destroy()` method: `disconnect()` then `super.destroy()`. -/
def destroy (s : State) : State :=
  { disconnect s with connectListeners := [] }

/-- Per-topic state invariant of the presence adapter: the readiness-gated
invariant plus the fact that a roster entry exists only for a bound topic. -/
def Inv (s : State) : Prop :=
  ∀ t : String,
    (s.readyChannels t = true → s.channels t = true) ∧
    (s.messageQueue t ≠ none → s.channels t = true ∧ s.readyChannels t = false) ∧
    (s.presenceMembers t ≠ none → s.channels t = true)

/-- One step of a presence adapter's life: a method call or a transport
callback; callbacks fire only for topics holding a binding. -/
inductive Step : State → State → Prop
  | connect (s : State) : Step s (connect s)
  | disconnect (s : State) : Step s (disconnect s)
  | subscribe (s : State) (topics : List String) : Step s (subscribe topics s)
  | unsubscribe (s : State) (topics : List String) : Step s (unsubscribe topics s)
  | publish (s : State) (topic : String) (data : Nat) : Step s (publish topic data s)
  | destroy (s : State) : Step s (destroy s)
  | hereFires (s : State) (topic : String) (members : List Member) :
      s.channels topic = true → Step s (hereFires topic members s)
  | joiningFires (s : State) (topic : String) (member : Member) :
      s.channels topic = true → Step s (joiningFires topic member s)
  | leavingFires (s : State) (topic : String) (member : Member) :
      s.channels topic = true → Step s (leavingFires topic member s)
  | subscribedFires (s : State) (topic : String) :
      s.channels topic = true → Step s (subscribedFires topic s)
  | errorFires (s : State) (topic : String) (err : Nat) :
      s.channels topic = true → Step s (errorFires topic err s)
  | addConnectListener (s : State) (l : Nat) : Step s (addConnectListener l s)
  | runDeferredTask (s : State) : Step s (runDeferredTask s)

/-- States reachable from a freshly constructed presence adapter. -/
inductive Reach : State → Prop
  | init (hasEcho : Bool) (cbs : CallbacksCfg) : Reach (init hasEcho cbs)
  | step {s s' : State} : Reach s → Step s s' → Reach s'

end LaravelEchoPresenceAdapter

/-- Result of the construction factory: which adapter class was
instantiated (a pre-built instance is returned unchanged; the echo handle
and callback configuration are carried through to the constructor). -/
inductive Adapter where
  | defaultAdapter
  | echoAdapter (echo : Nat)
  | echoPresenceAdapter (echo : Nat) (callbacks : Option LaravelEchoPresenceAdapter.CallbacksCfg)
  deriving DecidableEq, Repr

/-- Configuration value passed to `createSignalingAdapter`: a pre-built
adapter instance, a URL string, `null`, a number (any non-object,
non-string primitive), or a configuration object with an optional `type`
string, an optional `echo` handle and optional presence callbacks. -/
inductive Config where
  | adapterInstance (a : Adapter)
  | url (u : String)
  | nullConfig
  | numberConfig (n : Int)
  | objectConfig (type : Option String) (echo : Option Nat)
      (callbacks : Option LaravelEchoPresenceAdapter.CallbacksCfg)
  deriving DecidableEq, Repr

/-- The factory `createSignalingAdapter(config)`
(src/signaling-adapters/factory.js, presence-aware version): a
`SignalingAdapter` instance is returned unchanged; a string yields the
default adapter; an object dispatches on `config.type`, throwing when
`config.echo` is absent for the `echo` and `echo-presence` types and
defaulting otherwise; `null` and every other value fall through to the
default adapter. -/
def createSignalingAdapter : Config → Except String Adapter
  | .adapterInstance a => .ok a
  | .url _ => .ok .defaultAdapter
  | .nullConfig => .ok .defaultAdapter
  | .numberConfig _ => .ok .defaultAdapter
  | .objectConfig t e cbs =>
    if t = some "echo" then
      match e with
      | none => .error "Laravel Echo instance is required for LaravelEchoAdapter"
      | some inst => .ok (.echoAdapter inst)
    else if t = some "echo-presence" then
      match e with
      | none => .error "Laravel Echo instance is required for LaravelEchoPresenceAdapter"
      | some inst => .ok (.echoPresenceAdapter inst cbs)
    else .ok .defaultAdapter

/-- The spec's per-topic three-state classification: given the binding flag
and the ready flag of a topic, exactly one of `unbound`, `bound-not-ready`
and `bound-ready` describes it. -/
def ExactlyOneTopicState (bound ready : Bool) : Prop :=
  (bound = false ∧ ¬(bound = true ∧ ready = false) ∧ ¬(bound = true ∧ ready = true)) ∨
  ((bound = true ∧ ready = false) ∧ ¬bound = false ∧ ¬(bound = true ∧ ready = true)) ∨
  ((bound = true ∧ ready = true) ∧ ¬bound = false ∧ ¬(bound = true ∧ ready = false))

/-- Echo adapter that connected, subscribed `room` and published payload 5
while `room` was still waiting for its ready signal. -/
def echoQueuedState : LaravelEchoAdapter.State :=
  LaravelEchoAdapter.publish "room" 5
    (LaravelEchoAdapter.subscribe ["room"]
      (LaravelEchoAdapter.connect (LaravelEchoAdapter.init true)))

/-- Presence adapter (all callbacks wired) that connected, subscribed
`room` and published payload 5 while `room` was still waiting for its
ready signal. -/
def presenceQueuedState : LaravelEchoPresenceAdapter.State :=
  LaravelEchoPresenceAdapter.publish "room" 5
    (LaravelEchoPresenceAdapter.subscribe ["room"]
      (LaravelEchoPresenceAdapter.connect
        (LaravelEchoPresenceAdapter.init true ⟨true, true, true, true, true⟩)))

/-- Echo adapter with `room` bound and not ready, used to exercise the
queue-then-flush path on a concrete input. -/
def echoBoundState : LaravelEchoAdapter.State :=
  LaravelEchoAdapter.subscribe ["room"]
    (LaravelEchoAdapter.connect (LaravelEchoAdapter.init true))

/-- Presence adapter whose `room` roster holds members with ids 1 and 2,
obtained from a `here` snapshot on the bound topic. -/
def presenceRosterState : LaravelEchoPresenceAdapter.State :=
  LaravelEchoPresenceAdapter.hereFires "room" [⟨1, 0⟩, ⟨2, 7⟩]
    (LaravelEchoPresenceAdapter.subscribe ["room"]
      (LaravelEchoPresenceAdapter.connect
        (LaravelEchoPresenceAdapter.init true ⟨true, true, true, true, true⟩)))

theorem foldl_preserve {σ α : Type} {P : σ → Prop} {f : σ → α → σ}
    (hf : ∀ s a, P s → P (f s a)) :
    ∀ (l : List α) (s : σ), P s → P (l.foldl f s) := by
  intro l
  induction l with
  | nil => intro s h; exact h
  | cons a l ih => intro s h; exact ih _ (hf s a h)

/-- C5: `createSignalingAdapter` on a configuration object of type `echo`
(respectively `echo-presence`) with the echo instance absent fails
immediately with the configuration error; with the instance present it
returns the readiness-gated (respectively presence) adapter. -/
theorem claim_C5 :
    (∀ cbs, createSignalingAdapter (.objectConfig (some "echo") none cbs) =
      .error "Laravel Echo instance is required for LaravelEchoAdapter")
  ∧ (∀ cbs, createSignalingAdapter (.objectConfig (some "echo-presence") none cbs) =
      .error "Laravel Echo instance is required for LaravelEchoPresenceAdapter")
  ∧ (∀ e cbs, createSignalingAdapter (.objectConfig (some "echo") (some e) cbs) =
      .ok (.echoAdapter e))
  ∧ (∀ e cbs, createSignalingAdapter (.objectConfig (some "echo-presence") (some e) cbs) =
      .ok (.echoPresenceAdapter e cbs)) :=
  ⟨fun _ => rfl, fun _ => rfl, fun _ _ => rfl, fun _ _ => rfl⟩

/-- C10: every configuration that is not an adapter instance, not a
string, and not an object typed `echo` or `echo-presence` — `null`,
numbers, objects with a missing or unknown type — yields the default
adapter without throwing, and the only failing configurations are
`echo`/`echo-presence` objects with the echo instance absent. -/
theorem claim_C10 :
    createSignalingAdapter .nullConfig = .ok .defaultAdapter
  ∧ (∀ n, createSignalingAdapter (.numberConfig n) = .ok .defaultAdapter)
  ∧ (∀ e cbs, createSignalingAdapter (.objectConfig none e cbs) = .ok .defaultAdapter)
  ∧ (∀ ty e cbs, ty ≠ "echo" → ty ≠ "echo-presence" →
      createSignalingAdapter (.objectConfig (some ty) e cbs) = .ok .defaultAdapter)
  ∧ (∀ cfg msg, createSignalingAdapter cfg = .error msg →
      ∃ cbs, cfg = .objectConfig (some "echo") none cbs ∨
        cfg = .objectConfig (some "echo-presence") none cbs) := by
  refine ⟨rfl, fun _ => rfl, fun _ _ => rfl, ?_, ?_⟩
  · intro ty e cbs h1 h2
    have n1 : ¬(some ty = some "echo") := by simpa using h1
    have n2 : ¬(some ty = some "echo-presence") := by simpa using h2
    simp only [createSignalingAdapter, if_neg n1, if_neg n2]
  · intro cfg msg h
    cases cfg with
    | adapterInstance a => exact absurd h (by simp [createSignalingAdapter])
    | url u => exact absurd h (by simp [createSignalingAdapter])
    | nullConfig => exact absurd h (by simp [createSignalingAdapter])
    | numberConfig n => exact absurd h (by simp [createSignalingAdapter])
    | objectConfig ty e cbs =>
      refine ⟨cbs, ?_⟩
      by_cases h1 : ty = some "echo"
      · subst h1
        cases e with
        | none => exact Or.inl rfl
        | some inst => simp [createSignalingAdapter] at h
      · by_cases h2 : ty = some "echo-presence"
        · subst h2
          cases e with
          | none => exact Or.inr rfl
          | some inst => simp [createSignalingAdapter] at h
        · simp [createSignalingAdapter, if_neg h1, if_neg h2] at h

theorem claim_C10_witness :
    createSignalingAdapter (.objectConfig (some "custom") none none) = .ok .defaultAdapter
  ∧ ∃ cbs, (Config.objectConfig (some "echo") none none)
        = .objectConfig (some "echo") none cbs
      ∨ (Config.objectConfig (some "echo") none none)
        = .objectConfig (some "echo-presence") none cbs := by
  constructor
  · exact claim_C10.2.2.2.1 "custom" none none (by decide) (by decide)
  · exact claim_C10.2.2.2.2 _ "Laravel Echo instance is required for LaravelEchoAdapter" rfl

/-- C6: after `destroy()` on either adapter, `connected` and
`shouldConnect` are false and every per-topic map — channel bindings,
ready set, message queues and, for the presence adapter, rosters — is
empty. -/
theorem claim_C6 :
    (∀ s : LaravelEchoAdapter.State,
        (LaravelEchoAdapter.destroy s).connected = false
      ∧ (LaravelEchoAdapter.destroy s).shouldConnect = false
      ∧ ∀ t : String,
          (LaravelEchoAdapter.destroy s).channels t = false
        ∧ (LaravelEchoAdapter.destroy s).readyChannels t = false
        ∧ (LaravelEchoAdapter.destroy s).messageQueue t = none)
  ∧ (∀ p : LaravelEchoPresenceAdapter.State,
        (LaravelEchoPresenceAdapter.destroy p).connected = false
      ∧ (LaravelEchoPresenceAdapter.destroy p).shouldConnect = false
      ∧ ∀ t : String,
          (LaravelEchoPresenceAdapter.destroy p).channels t = false
        ∧ (LaravelEchoPresenceAdapter.destroy p).readyChannels t = false
        ∧ (LaravelEchoPresenceAdapter.destroy p).messageQueue t = none
        ∧ (LaravelEchoPresenceAdapter.destroy p).presenceMembers t = none) := by
  constructor
  · intro s
    refine ⟨rfl, rfl, fun t => ⟨rfl, rfl, rfl⟩⟩
  · intro p
    refine ⟨rfl, rfl, fun t => ⟨rfl, rfl, rfl, rfl⟩⟩

/-- C3: for both readiness-gated adapters, `connect(url)` sets
`shouldConnect` and `connected` unconditionally and emits nothing
synchronously; the `connect` event is a one-shot deferred task, so a
listener registered right after `connect()` returns, in the same
synchronous turn, is still delivered the event when the task runs. -/
theorem claim_C3 :
    (∀ (s : LaravelEchoAdapter.State) (l : Nat),
        (LaravelEchoAdapter.connect s).shouldConnect = true
      ∧ (LaravelEchoAdapter.connect s).connected = true
      ∧ (LaravelEchoAdapter.connect s).deliveredConnect = s.deliveredConnect
      ∧ (s.pendingConnectTasks = 0 →
          (LaravelEchoAdapter.runDeferredTask
              (LaravelEchoAdapter.addConnectListener l
                (LaravelEchoAdapter.connect s))).deliveredConnect
            = s.deliveredConnect ++ (s.connectListeners ++ [l])
        ∧ (LaravelEchoAdapter.runDeferredTask
              (LaravelEchoAdapter.addConnectListener l
                (LaravelEchoAdapter.connect s))).pendingConnectTasks = 0))
  ∧ (∀ (p : LaravelEchoPresenceAdapter.State) (l : Nat),
        (LaravelEchoPresenceAdapter.connect p).shouldConnect = true
      ∧ (LaravelEchoPresenceAdapter.connect p).connected = true
      ∧ (LaravelEchoPresenceAdapter.connect p).deliveredConnect = p.deliveredConnect
      ∧ (p.pendingConnectTasks = 0 →
          (LaravelEchoPresenceAdapter.runDeferredTask
              (LaravelEchoPresenceAdapter.addConnectListener l
                (LaravelEchoPresenceAdapter.connect p))).deliveredConnect
            = p.deliveredConnect ++ (p.connectListeners ++ [l])
        ∧ (LaravelEchoPresenceAdapter.runDeferredTask
              (LaravelEchoPresenceAdapter.addConnectListener l
                (LaravelEchoPresenceAdapter.connect p))).pendingConnectTasks = 0)) := by
  constructor
  · intro s l
    refine ⟨rfl, rfl, rfl, fun h0 => ?_⟩
    constructor
    · simp [LaravelEchoAdapter.connect, LaravelEchoAdapter.addConnectListener,
        LaravelEchoAdapter.runDeferredTask]
    · simp [LaravelEchoAdapter.connect, LaravelEchoAdapter.addConnectListener,
        LaravelEchoAdapter.runDeferredTask, h0]
  · intro p l
    refine ⟨rfl, rfl, rfl, fun h0 => ?_⟩
    constructor
    · simp [LaravelEchoPresenceAdapter.connect, LaravelEchoPresenceAdapter.addConnectListener,
        LaravelEchoPresenceAdapter.runDeferredTask]
    · simp [LaravelEchoPresenceAdapter.connect, LaravelEchoPresenceAdapter.addConnectListener,
        LaravelEchoPresenceAdapter.runDeferredTask, h0]

theorem claim_C3_witness :
    (LaravelEchoAdapter.runDeferredTask
        (LaravelEchoAdapter.addConnectListener 7
          (LaravelEchoAdapter.connect (LaravelEchoAdapter.init true)))).deliveredConnect = [7]
  ∧ (LaravelEchoPresenceAdapter.runDeferredTask
        (LaravelEchoPresenceAdapter.addConnectListener 7
          (LaravelEchoPresenceAdapter.connect
            (LaravelEchoPresenceAdapter.init true
              ⟨false, false, false, false, false⟩)))).deliveredConnect = [7] := by
  constructor
  · exact (((claim_C3.1 (LaravelEchoAdapter.init true) 7).2.2.2 rfl).1).trans (by decide)
  · exact (((claim_C3.2 (LaravelEchoPresenceAdapter.init true
      ⟨false, false, false, false, false⟩) 7).2.2.2 rfl).1).trans (by decide)

/-- C4: a subscription error reported on a bound channel is logged and, on
the presence adapter, forwarded to the `onError` callback when one is
wired; it mutates no adapter state — bindings, ready set, message queues
and rosters are untouched — and triggers no retry or outbound send. -/
theorem claim_C4 :
    (∀ (s : LaravelEchoAdapter.State) (topic : String) (err : Nat),
        (LaravelEchoAdapter.errorFires topic err s).channels = s.channels
      ∧ (LaravelEchoAdapter.errorFires topic err s).readyChannels = s.readyChannels
      ∧ (LaravelEchoAdapter.errorFires topic err s).messageQueue = s.messageQueue
      ∧ (LaravelEchoAdapter.errorFires topic err s).sent = s.sent
      ∧ (LaravelEchoAdapter.errorFires topic err s).errorLog
          = s.errorLog ++ [(getChannelName topic, err)])
  ∧ (∀ (p : LaravelEchoPresenceAdapter.State) (topic : String) (err : Nat),
        (LaravelEchoPresenceAdapter.errorFires topic err p).channels = p.channels
      ∧ (LaravelEchoPresenceAdapter.errorFires topic err p).readyChannels = p.readyChannels
      ∧ (LaravelEchoPresenceAdapter.errorFires topic err p).messageQueue = p.messageQueue
      ∧ (LaravelEchoPresenceAdapter.errorFires topic err p).presenceMembers = p.presenceMembers
      ∧ (LaravelEchoPresenceAdapter.errorFires topic err p).sent = p.sent
      ∧ (LaravelEchoPresenceAdapter.errorFires topic err p).errorLog
          = p.errorLog ++ [(getChannelName topic, err)]
      ∧ (p.callbacks.onError = true →
          (LaravelEchoPresenceAdapter.errorFires topic err p).onErrorCalls
            = p.onErrorCalls ++ [(err, getChannelName topic)])
      ∧ (p.callbacks.onError = false →
          (LaravelEchoPresenceAdapter.errorFires topic err p).onErrorCalls
            = p.onErrorCalls)) := by
  constructor
  · intro s topic err
    exact ⟨rfl, rfl, rfl, rfl, rfl⟩
  · intro p topic err
    refine ⟨rfl, rfl, rfl, rfl, rfl, rfl, fun hw => ?_, fun hw => ?_⟩
    · simp [LaravelEchoPresenceAdapter.errorFires, hw]
    · simp [LaravelEchoPresenceAdapter.errorFires, hw]

theorem claim_C4_witness :
    (LaravelEchoPresenceAdapter.errorFires "room" 3 presenceQueuedState).onErrorCalls
      = [(3, "y-webrtc.room")]
  ∧ (LaravelEchoPresenceAdapter.errorFires "room" 3 presenceQueuedState).messageQueue "room"
      = some [5] := by
  constructor
  · exact (((claim_C4.2 presenceQueuedState "room" 3).2.2.2.2.2.2.1 rfl)).trans (by decide)
  · exact congrFun ((claim_C4.2 presenceQueuedState "room" 3).2.2.1) "room" |>.trans (by decide)

/-- C7: a `leaving` event on topic T with `member.id = X` leaves T's
roster filtered to the entries whose id differs from X — so when no entry
carries X the roster is unchanged — never touches any other topic's
roster, and invokes `onLeaving` exactly when it is wired. -/
theorem claim_C7 (p : LaravelEchoPresenceAdapter.State) (topic other : String)
    (member : Member) :
    LaravelEchoPresenceAdapter.getPresenceMembers topic
        (LaravelEchoPresenceAdapter.leavingFires topic member p)
      = (LaravelEchoPresenceAdapter.getPresenceMembers topic p).filter
          (fun m => m.id != member.id)
  ∧ (other ≠ topic →
      (LaravelEchoPresenceAdapter.leavingFires topic member p).presenceMembers other
        = p.presenceMembers other)
  ∧ ((∀ m ∈ LaravelEchoPresenceAdapter.getPresenceMembers topic p, m.id ≠ member.id) →
      LaravelEchoPresenceAdapter.getPresenceMembers topic
          (LaravelEchoPresenceAdapter.leavingFires topic member p)
        = LaravelEchoPresenceAdapter.getPresenceMembers topic p)
  ∧ (p.callbacks.onLeaving = true →
      (LaravelEchoPresenceAdapter.leavingFires topic member p).onLeavingCalls
        = p.onLeavingCalls ++ [member])
  ∧ (p.callbacks.onLeaving = false →
      (LaravelEchoPresenceAdapter.leavingFires topic member p).onLeavingCalls
        = p.onLeavingCalls) := by
  refine ⟨?_, fun hne => ?_, fun hno => ?_, fun hw => ?_, fun hw => ?_⟩
  · simp [LaravelEchoPresenceAdapter.leavingFires, LaravelEchoPresenceAdapter.getPresenceMembers]
  · simp [LaravelEchoPresenceAdapter.leavingFires, hne]
  · have h1 : LaravelEchoPresenceAdapter.getPresenceMembers topic
        (LaravelEchoPresenceAdapter.leavingFires topic member p)
      = (LaravelEchoPresenceAdapter.getPresenceMembers topic p).filter
          (fun m => m.id != member.id) := by
      simp [LaravelEchoPresenceAdapter.leavingFires, LaravelEchoPresenceAdapter.getPresenceMembers]
    rw [h1]
    exact List.filter_eq_self.mpr (fun m hm => by simpa [bne_iff_ne] using hno m hm)
  · simp [LaravelEchoPresenceAdapter.leavingFires, hw]
  · simp [LaravelEchoPresenceAdapter.leavingFires, hw]

theorem claim_C7_witness :
    LaravelEchoPresenceAdapter.getPresenceMembers "room"
        (LaravelEchoPresenceAdapter.leavingFires "room" ⟨1, 3⟩ presenceRosterState)
      = [⟨2, 7⟩]
  ∧ (LaravelEchoPresenceAdapter.leavingFires "room" ⟨1, 3⟩
        presenceRosterState).presenceMembers "other" = none
  ∧ (LaravelEchoPresenceAdapter.leavingFires "room" ⟨1, 3⟩
        presenceRosterState).onLeavingCalls = [⟨1, 3⟩] := by
  refine ⟨?_, ?_, ?_⟩
  · exact (claim_C7 presenceRosterState "room" "other" ⟨1, 3⟩).1.trans (by decide)
  · exact ((claim_C7 presenceRosterState "room" "other" ⟨1, 3⟩).2.1 (by decide)).trans (by decide)
  · exact ((claim_C7 presenceRosterState "room" "other" ⟨1, 3⟩).2.2.2.1 (by decide)).trans
      (by decide)

/-- C9: the `joining` handler does not deduplicate by id — joining a
member whose id already occurs in the roster appends a second entry with
that id — and a subsequent `leaving` event with that id removes every
entry carrying it. -/
theorem claim_C9 (p : LaravelEchoPresenceAdapter.State) (topic : String) (member : Member)
    (hdup : member.id ∈ (LaravelEchoPresenceAdapter.getPresenceMembers topic p).map Member.id) :
    LaravelEchoPresenceAdapter.getPresenceMembers topic
        (LaravelEchoPresenceAdapter.joiningFires topic member p)
      = LaravelEchoPresenceAdapter.getPresenceMembers topic p ++ [member]
  ∧ 2 ≤ (LaravelEchoPresenceAdapter.getPresenceMembers topic
        (LaravelEchoPresenceAdapter.joiningFires topic member p)).countP
        (fun m => m.id == member.id)
  ∧ (LaravelEchoPresenceAdapter.getPresenceMembers topic
        (LaravelEchoPresenceAdapter.leavingFires topic member
          (LaravelEchoPresenceAdapter.joiningFires topic member p))).countP
        (fun m => m.id == member.id) = 0 := by
  have h1 : LaravelEchoPresenceAdapter.getPresenceMembers topic
      (LaravelEchoPresenceAdapter.joiningFires topic member p)
    = LaravelEchoPresenceAdapter.getPresenceMembers topic p ++ [member] := by
    simp [LaravelEchoPresenceAdapter.joiningFires, LaravelEchoPresenceAdapter.getPresenceMembers]
  refine ⟨h1, ?_, ?_⟩
  · rw [h1, List.countP_append]
    have h2 : 0 < (LaravelEchoPresenceAdapter.getPresenceMembers topic p).countP
        (fun m => m.id == member.id) := by
      rw [List.countP_pos_iff]
      obtain ⟨m, hm, hid⟩ := List.mem_map.mp hdup
      exact ⟨m, hm, by simp [hid]⟩
    have h3 : List.countP (fun m => m.id == member.id) [member] = 1 := by simp
    omega
  · rw [List.countP_eq_zero]
    intro a ha
    have hmem : a ∈ (((LaravelEchoPresenceAdapter.joiningFires topic member
        p).presenceMembers topic).getD []).filter (fun m => m.id != member.id) := by
      simpa [LaravelEchoPresenceAdapter.leavingFires,
        LaravelEchoPresenceAdapter.getPresenceMembers] using ha
    have hbne := (List.mem_filter.mp hmem).2
    simpa [bne_iff_ne] using hbne

theorem claim_C9_witness :
    LaravelEchoPresenceAdapter.getPresenceMembers "room"
        (LaravelEchoPresenceAdapter.joiningFires "room" ⟨1, 9⟩ presenceRosterState)
      = [⟨1, 0⟩, ⟨2, 7⟩, ⟨1, 9⟩]
  ∧ (LaravelEchoPresenceAdapter.getPresenceMembers "room"
        (LaravelEchoPresenceAdapter.leavingFires "room" ⟨1, 9⟩
          (LaravelEchoPresenceAdapter.joiningFires "room" ⟨1, 9⟩
            presenceRosterState))).countP (fun m => m.id == 1) = 0 := by
  have h := claim_C9 presenceRosterState "room" ⟨1, 9⟩ (by decide)
  exact ⟨h.1.trans (by decide), h.2.2⟩

theorem publishList_spec (topic : String) :
    ∀ (ds : List Nat) (s : LaravelEchoAdapter.State),
      s.channels topic = true → s.readyChannels topic = false →
      (LaravelEchoAdapter.publishList topic ds s).channels = s.channels
    ∧ (LaravelEchoAdapter.publishList topic ds s).readyChannels = s.readyChannels
    ∧ (LaravelEchoAdapter.publishList topic ds s).sent = s.sent
    ∧ ((LaravelEchoAdapter.publishList topic ds s).messageQueue topic).getD []
        = (s.messageQueue topic).getD [] ++ ds := by
  intro ds
  induction ds with
  | nil =>
    intro s hb hr
    exact ⟨rfl, rfl, rfl, by simp [LaravelEchoAdapter.publishList]⟩
  | cons d ds ih =>
    intro s hb hr
    have hpub : LaravelEchoAdapter.publish topic d s
        = { s with messageQueue := fun t =>
            if t = topic then some ((s.messageQueue topic).getD [] ++ [d])
            else s.messageQueue t } := by
      simp [LaravelEchoAdapter.publish, hb, hr]
    have hfold : LaravelEchoAdapter.publishList topic (d :: ds) s
        = LaravelEchoAdapter.publishList topic ds (LaravelEchoAdapter.publish topic d s) := rfl
    have hb' : (LaravelEchoAdapter.publish topic d s).channels topic = true := by
      rw [hpub]; exact hb
    have hr' : (LaravelEchoAdapter.publish topic d s).readyChannels topic = false := by
      rw [hpub]; exact hr
    have key := ih _ hb' hr'
    rw [hfold]
    refine ⟨key.1.trans ?_, key.2.1.trans ?_, key.2.2.1.trans ?_, ?_⟩
    · rw [hpub]
    · rw [hpub]
    · rw [hpub]
    · rw [key.2.2.2, hpub]
      simp

/-- C1 counterexample: a publish issued while the topic is not ready but
still unbound is dropped, so after the topic is subscribed and its ready
signal fires the transport has received nothing — not the published
payload. -/
theorem claim_C1_cex :
    (LaravelEchoAdapter.connect (LaravelEchoAdapter.init true)).readyChannels "room" = false
  ∧ (LaravelEchoAdapter.subscribedFires "room"
      (LaravelEchoAdapter.subscribe ["room"]
        (LaravelEchoAdapter.publish "room" 1
          (LaravelEchoAdapter.connect
            (LaravelEchoAdapter.init true))))).readyChannels "room" = true
  ∧ (LaravelEchoAdapter.subscribedFires "room"
      (LaravelEchoAdapter.subscribe ["room"]
        (LaravelEchoAdapter.publish "room" 1
          (LaravelEchoAdapter.connect (LaravelEchoAdapter.init true))))).sent = []
  ∧ ("room", 1) ∉ (LaravelEchoAdapter.subscribedFires "room"
      (LaravelEchoAdapter.subscribe ["room"]
        (LaravelEchoAdapter.publish "room" 1
          (LaravelEchoAdapter.connect (LaravelEchoAdapter.init true))))).sent := by
  decide

/-- C1 (amended): for every topic T that is bound and not yet ready and
has no queue entry, a sequence of calls publish(T, d1), ..., publish(T, dn)
followed by T's ready signal makes the transport channel receive exactly
d1..dn for T, in that order, exactly once each, and afterward the message
queue holds no entry for T. -/
theorem claim_C1 (s : LaravelEchoAdapter.State) (topic : String) (ds : List Nat)
    (hb : s.channels topic = true) (hr : s.readyChannels topic = false)
    (hq : s.messageQueue topic = none) :
    (LaravelEchoAdapter.subscribedFires topic
        (LaravelEchoAdapter.publishList topic ds s)).sent
      = s.sent ++ ds.map (fun d => (topic, d))
  ∧ (LaravelEchoAdapter.subscribedFires topic
        (LaravelEchoAdapter.publishList topic ds s)).messageQueue topic = none
  ∧ (LaravelEchoAdapter.subscribedFires topic
        (LaravelEchoAdapter.publishList topic ds s)).readyChannels topic = true := by
  obtain ⟨hc, hrd, hs, hqd⟩ := publishList_spec topic ds s hb hr
  refine ⟨?_, ?_, ?_⟩
  · have hsent : (LaravelEchoAdapter.subscribedFires topic
        (LaravelEchoAdapter.publishList topic ds s)).sent
      = (LaravelEchoAdapter.publishList topic ds s).sent
        ++ (((LaravelEchoAdapter.publishList topic ds s).messageQueue topic).getD []).map
          (fun d => (topic, d)) := rfl
    rw [hsent, hs, hqd, hq]
    simp
  · simp [LaravelEchoAdapter.subscribedFires]
  · simp [LaravelEchoAdapter.subscribedFires]

theorem claim_C1_witness :
    (LaravelEchoAdapter.subscribedFires "room"
        (LaravelEchoAdapter.publishList "room" [1, 2] echoBoundState)).sent
      = [("room", 1), ("room", 2)]
  ∧ (LaravelEchoAdapter.subscribedFires "room"
        (LaravelEchoAdapter.publishList "room" [1, 2] echoBoundState)).messageQueue "room"
      = none := by
  have h := claim_C1 echoBoundState "room" [1, 2] (by decide) (by decide) (by decide)
  exact ⟨h.1.trans (by decide), h.2.1⟩

theorem echoInv_subscribeOne (s : LaravelEchoAdapter.State) (a : String)
    (hs : LaravelEchoAdapter.Inv s) :
    LaravelEchoAdapter.Inv (LaravelEchoAdapter.subscribeOne s a) := by
  unfold LaravelEchoAdapter.subscribeOne
  split
  · exact hs
  · intro t
    obtain ⟨h1, h2⟩ := hs t
    constructor
    · intro hr
      by_cases ht : t = a
      · simp [ht]
      · simpa [ht] using h1 hr
    · intro hq
      obtain ⟨hc, hr⟩ := h2 hq
      constructor
      · by_cases ht : t = a
        · simp [ht]
        · simpa [ht] using hc
      · exact hr

theorem echoInv_unsubscribeOne (s : LaravelEchoAdapter.State) (a : String)
    (hs : LaravelEchoAdapter.Inv s) :
    LaravelEchoAdapter.Inv (LaravelEchoAdapter.unsubscribeOne s a) := by
  unfold LaravelEchoAdapter.unsubscribeOne
  split
  · intro t
    obtain ⟨h1, h2⟩ := hs t
    constructor
    · intro hr
      by_cases ht : t = a
      · subst ht; simp at hr
      · simp only [if_neg ht] at hr ⊢
        exact h1 hr
    · intro hq
      by_cases ht : t = a
      · subst ht; simp at hq
      · simp only [if_neg ht] at hq ⊢
        exact h2 hq
  · exact hs

theorem echoInv_step {s s' : LaravelEchoAdapter.State}
    (hs : LaravelEchoAdapter.Inv s) (h : LaravelEchoAdapter.Step s s') :
    LaravelEchoAdapter.Inv s' := by
  cases h with
  | connect => intro t; simpa [LaravelEchoAdapter.connect] using hs t
  | disconnect => intro t; simp [LaravelEchoAdapter.disconnect]
  | subscribe topics =>
    unfold LaravelEchoAdapter.subscribe
    split
    · exact hs
    · exact foldl_preserve (fun s a h => echoInv_subscribeOne s a h) topics s hs
  | unsubscribe topics =>
    exact foldl_preserve (fun s a h => echoInv_unsubscribeOne s a h) topics s hs
  | publish topic data =>
    unfold LaravelEchoAdapter.publish
    split
    · exact hs
    · split
      · intro t; simpa using hs t
      · rename_i hcb hrb
        intro t
        obtain ⟨h1, h2⟩ := hs t
        refine ⟨h1, fun hq => ?_⟩
        by_cases ht : t = topic
        · subst ht
          refine ⟨?_, ?_⟩
          · cases hcv : s.channels t
            · exact absurd hcv hcb
            · rfl
          · cases hrv : s.readyChannels t
            · rfl
            · exact absurd hrv hrb
        · exact h2 (by simpa [ht] using hq)
  | destroy => intro t; simp [LaravelEchoAdapter.destroy, LaravelEchoAdapter.disconnect]
  | subscribedFires topic hb =>
    intro t
    obtain ⟨h1, h2⟩ := hs t
    constructor
    · intro hr
      by_cases ht : t = topic
      · subst ht; exact hb
      · exact h1 (by simpa [LaravelEchoAdapter.subscribedFires, ht] using hr)
    · intro hq
      by_cases ht : t = topic
      · subst ht; simp [LaravelEchoAdapter.subscribedFires] at hq
      · obtain ⟨hc, hr⟩ := h2 (by simpa [LaravelEchoAdapter.subscribedFires, ht] using hq)
        exact ⟨hc, by simpa [LaravelEchoAdapter.subscribedFires, ht] using hr⟩
  | errorFires topic err hb => intro t; simpa [LaravelEchoAdapter.errorFires] using hs t
  | addConnectListener l => intro t; simpa [LaravelEchoAdapter.addConnectListener] using hs t
  | runDeferredTask =>
    unfold LaravelEchoAdapter.runDeferredTask
    split
    · exact hs
    · intro t; simpa using hs t

theorem echoInv_reach : ∀ s : LaravelEchoAdapter.State,
    LaravelEchoAdapter.Reach s → LaravelEchoAdapter.Inv s := by
  intro s h
  induction h with
  | init b => intro t; simp [LaravelEchoAdapter.init]
  | step hr hstep ih => exact echoInv_step ih hstep

theorem presenceInv_subscribeOne (s : LaravelEchoPresenceAdapter.State) (a : String)
    (hs : LaravelEchoPresenceAdapter.Inv s) :
    LaravelEchoPresenceAdapter.Inv (LaravelEchoPresenceAdapter.subscribeOne s a) := by
  unfold LaravelEchoPresenceAdapter.subscribeOne
  split
  · exact hs
  · intro t
    obtain ⟨h1, h2, h3⟩ := hs t
    refine ⟨?_, ?_, ?_⟩
    · intro hr
      by_cases ht : t = a
      · simp [ht]
      · simpa [ht] using h1 hr
    · intro hq
      obtain ⟨hc, hr⟩ := h2 hq
      constructor
      · by_cases ht : t = a
        · simp [ht]
        · simpa [ht] using hc
      · exact hr
    · intro hm
      by_cases ht : t = a
      · simp [ht]
      · simpa [ht] using h3 hm

theorem presenceInv_unsubscribeOne (s : LaravelEchoPresenceAdapter.State) (a : String)
    (hs : LaravelEchoPresenceAdapter.Inv s) :
    LaravelEchoPresenceAdapter.Inv (LaravelEchoPresenceAdapter.unsubscribeOne s a) := by
  unfold LaravelEchoPresenceAdapter.unsubscribeOne
  split
  · intro t
    obtain ⟨h1, h2, h3⟩ := hs t
    refine ⟨?_, ?_, ?_⟩
    · intro hr
      by_cases ht : t = a
      · subst ht; simp at hr
      · simp only [if_neg ht] at hr ⊢
        exact h1 hr
    · intro hq
      by_cases ht : t = a
      · subst ht; simp at hq
      · simp only [if_neg ht] at hq ⊢
        exact h2 hq
    · intro hm
      by_cases ht : t = a
      · subst ht; simp at hm
      · simp only [if_neg ht] at hm ⊢
        exact h3 hm
  · exact hs

theorem presenceInv_step {s s' : LaravelEchoPresenceAdapter.State}
    (hs : LaravelEchoPresenceAdapter.Inv s) (h : LaravelEchoPresenceAdapter.Step s s') :
    LaravelEchoPresenceAdapter.Inv s' := by
  cases h with
  | connect => intro t; simpa [LaravelEchoPresenceAdapter.connect] using hs t
  | disconnect => intro t; simp [LaravelEchoPresenceAdapter.disconnect]
  | subscribe topics =>
    unfold LaravelEchoPresenceAdapter.subscribe
    split
    · exact hs
    · exact foldl_preserve (fun s a h => presenceInv_subscribeOne s a h) topics s hs
  | unsubscribe topics =>
    exact foldl_preserve (fun s a h => presenceInv_unsubscribeOne s a h) topics s hs
  | publish topic data =>
    unfold LaravelEchoPresenceAdapter.publish
    split
    · exact hs
    · split
      · intro t; simpa using hs t
      · rename_i hcb hrb
        intro t
        obtain ⟨h1, h2, h3⟩ := hs t
        refine ⟨h1, fun hq => ?_, h3⟩
        by_cases ht : t = topic
        · subst ht
          refine ⟨?_, ?_⟩
          · cases hcv : s.channels t
            · exact absurd hcv hcb
            · rfl
          · cases hrv : s.readyChannels t
            · rfl
            · exact absurd hrv hrb
        · exact h2 (by simpa [ht] using hq)
  | destroy =>
    intro t
    simp [LaravelEchoPresenceAdapter.destroy, LaravelEchoPresenceAdapter.disconnect]
  | hereFires topic members hb =>
    intro t
    obtain ⟨h1, h2, h3⟩ := hs t
    refine ⟨h1, h2, ?_⟩
    intro hm
    by_cases ht : t = topic
    · subst ht; exact hb
    · exact h3 (by simpa [LaravelEchoPresenceAdapter.hereFires, ht] using hm)
  | joiningFires topic member hb =>
    intro t
    obtain ⟨h1, h2, h3⟩ := hs t
    refine ⟨h1, h2, ?_⟩
    intro hm
    by_cases ht : t = topic
    · subst ht; exact hb
    · exact h3 (by simpa [LaravelEchoPresenceAdapter.joiningFires, ht] using hm)
  | leavingFires topic member hb =>
    intro t
    obtain ⟨h1, h2, h3⟩ := hs t
    refine ⟨h1, h2, ?_⟩
    intro hm
    by_cases ht : t = topic
    · subst ht; exact hb
    · exact h3 (by simpa [LaravelEchoPresenceAdapter.leavingFires, ht] using hm)
  | subscribedFires topic hb =>
    intro t
    obtain ⟨h1, h2, h3⟩ := hs t
    refine ⟨?_, ?_, ?_⟩
    · intro hr
      by_cases ht : t = topic
      · subst ht; exact hb
      · exact h1 (by simpa [LaravelEchoPresenceAdapter.subscribedFires, ht] using hr)
    · intro hq
      by_cases ht : t = topic
      · subst ht; simp [LaravelEchoPresenceAdapter.subscribedFires] at hq
      · obtain ⟨hc, hr⟩ := h2
          (by simpa [LaravelEchoPresenceAdapter.subscribedFires, ht] using hq)
        exact ⟨hc, by simpa [LaravelEchoPresenceAdapter.subscribedFires, ht] using hr⟩
    · exact h3
  | errorFires topic err hb =>
    intro t
    simpa [LaravelEchoPresenceAdapter.errorFires] using hs t
  | addConnectListener l =>
    intro t
    simpa [LaravelEchoPresenceAdapter.addConnectListener] using hs t
  | runDeferredTask =>
    unfold LaravelEchoPresenceAdapter.runDeferredTask
    split
    · exact hs
    · intro t; simpa using hs t

theorem presenceInv_reach : ∀ s : LaravelEchoPresenceAdapter.State,
    LaravelEchoPresenceAdapter.Reach s → LaravelEchoPresenceAdapter.Inv s := by
  intro s h
  induction h with
  | init b cbs => intro t; simp [LaravelEchoPresenceAdapter.init]
  | step hr hstep ih => exact presenceInv_step ih hstep

theorem reach_echoQueuedState : LaravelEchoAdapter.Reach echoQueuedState :=
  LaravelEchoAdapter.Reach.step
    (LaravelEchoAdapter.Reach.step
      (LaravelEchoAdapter.Reach.step (LaravelEchoAdapter.Reach.init true)
        (LaravelEchoAdapter.Step.connect _))
      (LaravelEchoAdapter.Step.subscribe _ ["room"]))
    (LaravelEchoAdapter.Step.publish _ "room" 5)

theorem reach_presenceQueuedState : LaravelEchoPresenceAdapter.Reach presenceQueuedState :=
  LaravelEchoPresenceAdapter.Reach.step
    (LaravelEchoPresenceAdapter.Reach.step
      (LaravelEchoPresenceAdapter.Reach.step
        (LaravelEchoPresenceAdapter.Reach.init true ⟨true, true, true, true, true⟩)
        (LaravelEchoPresenceAdapter.Step.connect _))
      (LaravelEchoPresenceAdapter.Step.subscribe _ ["room"]))
    (LaravelEchoPresenceAdapter.Step.publish _ "room" 5)

/-- C2: in every state of either readiness-gated adapter reachable by any
sequence of method calls and transport callbacks, each topic is in exactly
one of the states unbound, bound-not-ready, bound-ready: every topic in
the ready set has a channel binding, and a message-queue entry for a topic
exists only while the topic is bound and not ready. -/
theorem claim_C2 :
    (∀ s : LaravelEchoAdapter.State, LaravelEchoAdapter.Reach s → ∀ t : String,
        (s.readyChannels t = true → s.channels t = true)
      ∧ (s.messageQueue t ≠ none → s.channels t = true ∧ s.readyChannels t = false)
      ∧ ExactlyOneTopicState (s.channels t) (s.readyChannels t))
  ∧ (∀ p : LaravelEchoPresenceAdapter.State, LaravelEchoPresenceAdapter.Reach p →
      ∀ t : String,
        (p.readyChannels t = true → p.channels t = true)
      ∧ (p.messageQueue t ≠ none → p.channels t = true ∧ p.readyChannels t = false)
      ∧ ExactlyOneTopicState (p.channels t) (p.readyChannels t)) := by
  constructor
  · intro s hreach t
    obtain ⟨h1, h2⟩ := echoInv_reach s hreach t
    refine ⟨h1, h2, ?_⟩
    cases hc : s.channels t <;> cases hr : s.readyChannels t <;>
      (unfold ExactlyOneTopicState; decide)
  · intro p hreach t
    obtain ⟨h1, h2, h3⟩ := presenceInv_reach p hreach t
    refine ⟨h1, h2, ?_⟩
    cases hc : p.channels t <;> cases hr : p.readyChannels t <;>
      (unfold ExactlyOneTopicState; decide)

theorem claim_C2_witness :
    (echoQueuedState.channels "room" = true ∧ echoQueuedState.readyChannels "room" = false)
  ∧ (presenceQueuedState.channels "room" = true
      ∧ presenceQueuedState.readyChannels "room" = false) :=
  ⟨(claim_C2.1 echoQueuedState reach_echoQueuedState "room").2.1 (by decide),
   (claim_C2.2 presenceQueuedState reach_presenceQueuedState "room").2.1 (by decide)⟩

theorem punsubscribe_stable (topic : String) :
    ∀ (topics : List String) (p : LaravelEchoPresenceAdapter.State),
      p.channels topic = false → p.presenceMembers topic = none →
      (LaravelEchoPresenceAdapter.unsubscribe topics p).channels topic = false
    ∧ (LaravelEchoPresenceAdapter.unsubscribe topics p).presenceMembers topic = none := by
  intro topics
  induction topics with
  | nil => intro p h1 h2; exact ⟨h1, h2⟩
  | cons a ts ih =>
    intro p h1 h2
    apply ih
    · unfold LaravelEchoPresenceAdapter.unsubscribeOne
      split
      · by_cases ht : topic = a
        · simp [ht]
        · simpa [ht] using h1
      · exact h1
    · unfold LaravelEchoPresenceAdapter.unsubscribeOne
      split
      · by_cases ht : topic = a
        · simp [ht]
        · simpa [ht] using h2
      · exact h2

theorem punsubscribe_clears (topic : String) :
    ∀ (topics : List String) (p : LaravelEchoPresenceAdapter.State),
      topic ∈ topics → p.channels topic = true →
      (LaravelEchoPresenceAdapter.unsubscribe topics p).channels topic = false
    ∧ (LaravelEchoPresenceAdapter.unsubscribe topics p).presenceMembers topic = none := by
  intro topics
  induction topics with
  | nil => intro p hmem _; exact absurd hmem (List.not_mem_nil _)
  | cons a ts ih =>
    intro p hmem hb
    by_cases ha : a = topic
    · subst ha
      refine punsubscribe_stable a ts _ ?_ ?_
      · simp [LaravelEchoPresenceAdapter.unsubscribeOne, hb]
      · simp [LaravelEchoPresenceAdapter.unsubscribeOne, hb]
    · have hmem' : topic ∈ ts := by
        rcases List.mem_cons.mp hmem with h | h
        · exact absurd h.symm ha
        · exact h
      have hb' : (LaravelEchoPresenceAdapter.unsubscribeOne p a).channels topic = true := by
        unfold LaravelEchoPresenceAdapter.unsubscribeOne
        split
        · simpa [show ¬topic = a from fun h => ha h.symm] using hb
        · exact hb
      exact ih _ hmem' hb'

/-- C8: `getPresenceMembers(T)` returns the current roster of T, and for
any T with no roster — never bound, unsubscribed, or cleared by
`disconnect()` — it returns the empty list, never an absent value. -/
theorem claim_C8 (p : LaravelEchoPresenceAdapter.State) (topic : String)
    (topics : List String) :
    (∀ l, p.presenceMembers topic = some l →
        LaravelEchoPresenceAdapter.getPresenceMembers topic p = l)
  ∧ (p.presenceMembers topic = none →
      LaravelEchoPresenceAdapter.getPresenceMembers topic p = [])
  ∧ (LaravelEchoPresenceAdapter.Reach p → p.channels topic = false →
      LaravelEchoPresenceAdapter.getPresenceMembers topic p = [])
  ∧ (topic ∈ topics → p.channels topic = true →
      LaravelEchoPresenceAdapter.getPresenceMembers topic
        (LaravelEchoPresenceAdapter.unsubscribe topics p) = [])
  ∧ LaravelEchoPresenceAdapter.getPresenceMembers topic
      (LaravelEchoPresenceAdapter.disconnect p) = [] := by
  refine ⟨?_, ?_, ?_, ?_, ?_⟩
  · intro l hl
    simp [LaravelEchoPresenceAdapter.getPresenceMembers, hl]
  · intro h
    simp [LaravelEchoPresenceAdapter.getPresenceMembers, h]
  · intro hre hcf
    have h3 := (presenceInv_reach p hre topic).2.2
    cases hm : p.presenceMembers topic with
    | none => simp [LaravelEchoPresenceAdapter.getPresenceMembers, hm]
    | some l => exact absurd (h3 (by simp [hm])) (by simp [hcf])
  · intro hmem hb
    have h := punsubscribe_clears topic topics p hmem hb
    simp [LaravelEchoPresenceAdapter.getPresenceMembers, h.2]
  · simp [LaravelEchoPresenceAdapter.getPresenceMembers,
      LaravelEchoPresenceAdapter.disconnect]

theorem claim_C8_witness :
    LaravelEchoPresenceAdapter.getPresenceMembers "room" presenceRosterState
      = [⟨1, 0⟩, ⟨2, 7⟩]
  ∧ LaravelEchoPresenceAdapter.getPresenceMembers "room"
      (LaravelEchoPresenceAdapter.init true ⟨true, true, true, true, true⟩) = []
  ∧ LaravelEchoPresenceAdapter.getPresenceMembers "room"
      (LaravelEchoPresenceAdapter.unsubscribe ["room"] presenceRosterState) = []
  ∧ LaravelEchoPresenceAdapter.getPresenceMembers "room"
      (LaravelEchoPresenceAdapter.disconnect presenceRosterState) = [] := by
  refine ⟨?_, ?_, ?_, ?_⟩
  · exact (claim_C8 presenceRosterState "room" ["room"]).1 _ (by decide)
  · exact (claim_C8 (LaravelEchoPresenceAdapter.init true ⟨true, true, true, true, true⟩)
      "room" []).2.2.1 (LaravelEchoPresenceAdapter.Reach.init true
        ⟨true, true, true, true, true⟩) (by decide)
  · exact (claim_C8 presenceRosterState "room" ["room"]).2.2.2.1 (by decide) (by decide)
  · exact (claim_C8 presenceRosterState "room" ["room"]).2.2.2.2

end YWebrtcSpec
